import Mathlib

/-!
Shallow embedding of the fjord-wind-forecast core
(src/src/hooks/useWindTracker.ts and the downstream indicator in
src/src/pages/Index.tsx).

Modelling conventions:
* JavaScript numbers are modelled as exact rationals (ℚ); all arithmetic
  in the embedded code is linear, so ℚ is faithful up to floating-point
  rounding noise, which none of the verified properties depend on.
* `Math.random()` draws are passed in explicitly as rationals in [0, 1).
* ISO timestamp strings produced by `formatISO` are modelled as epoch
  milliseconds (ℤ) in `HistoricPoint.t` (`formatISO` is an order-preserving
  injection); `WindPayload.dateTime` stays a `String` as in the source.
* `Math.round x` is `⌊x + 1/2⌋` (JavaScript rounds half toward +∞).
* fetch failures (timeout, network error, non-2xx) are a single error
  value: the caller treats them all identically.
-/

namespace WindTracker

/-- `clamp(n, min, max) = Math.min(max, Math.max(min, n))` from useWindTracker.ts. -/
def clamp (n lo hi : ℚ) : ℚ := min hi (max lo n)

/-- `randBetween(min, max) = Math.random() * (max - min) + min`, with the
`Math.random()` draw `r` made explicit. -/
def randBetween (r lo hi : ℚ) : ℚ := r * (hi - lo) + lo

/-- JavaScript `Math.round`: round half toward positive infinity. -/
def jsRound (q : ℚ) : ℤ := ⌊q + 1/2⌋

/-- `Number(x.toFixed(2))` for the nonnegative magnitudes used here. -/
def round2 (q : ℚ) : ℚ := ((⌊q * 100 + 1/2⌋ : ℤ) : ℚ) / 100

/-- `Number(x.toFixed(1))` for the nonnegative magnitudes used here. -/
def round1 (q : ℚ) : ℚ := ((⌊q * 10 + 1/2⌋ : ℤ) : ℚ) / 10

/-- JavaScript `%` (remainder, truncated division) on rationals. -/
def jsRem (a b : ℚ) : ℚ := a - b * (if 0 ≤ a / b then (⌊a / b⌋ : ℚ) else (⌈a / b⌉ : ℚ))

/-- JavaScript `%` on integers (sign follows the dividend). -/
def jsRemInt (a b : ℤ) : ℤ := if 0 ≤ a then a % b else -((-a) % b)

/-- The `wind` block of a payload. -/
structure Wind where
  speed : ℚ
  gust : ℚ
  min : ℚ
  unit : String
  direction : ℚ
deriving DecidableEq

/-- `WindPayload` from useWindTracker.ts. -/
structure WindPayload where
  stationId : ℤ
  stationName : String
  dateTime : String
  wind : Wind
  humidity : Option ℚ
  pressure : Option ℚ
  rain : Option ℚ
  temperature : Option ℚ
deriving DecidableEq

/-- `HistoricPoint` from useWindTracker.ts; `t` is the ISO timestamp
modelled as epoch milliseconds. -/
structure HistoricPoint where
  t : ℤ
  speed : ℚ
  gust : ℚ
deriving DecidableEq

instance : Inhabited HistoricPoint := ⟨⟨0, 0, 0⟩⟩

/-- The fixed two-station catalog `STATIONS`. -/
inductive StationKey
  | drobak
  | lysaker
deriving DecidableEq

/-- Station ids from `STATIONS` (drobak 101, lysaker 201). -/
def stationId : StationKey → ℤ
  | .drobak => 101
  | .lysaker => 201

/-- Station display names from `STATIONS`. -/
def stationName : StationKey → String
  | .drobak => "Drøbak"
  | .lysaker => "Lysaker"

/-- The `Math.random()` draws consumed by one `simulateCurrent` call, each
in [0, 1). `noise` is the draw for the no-previous-reading baseline noise. -/
structure Rnd where
  drift : ℚ
  noise : ℚ
  gustOff : ℚ
  minOff : ℚ
  dirJit : ℚ
  hum : ℚ
  pres : ℚ
  rain : ℚ
  temp : ℚ
deriving DecidableEq

/-- All draws of an `Rnd` lie in [0, 1), as `Math.random()` guarantees. -/
def RndOK (r : Rnd) : Prop :=
  (0 ≤ r.drift ∧ r.drift < 1) ∧ (0 ≤ r.noise ∧ r.noise < 1) ∧
  (0 ≤ r.gustOff ∧ r.gustOff < 1) ∧ (0 ≤ r.minOff ∧ r.minOff < 1) ∧
  (0 ≤ r.dirJit ∧ r.dirJit < 1) ∧ (0 ≤ r.hum ∧ r.hum < 1) ∧
  (0 ≤ r.pres ∧ r.pres < 1) ∧ (0 ≤ r.rain ∧ r.rain < 1) ∧
  (0 ≤ r.temp ∧ r.temp < 1)

instance (r : Rnd) : Decidable (RndOK r) := by
  unfold RndOK; infer_instance

/-- `simulateCurrent(station, prev?)` from useWindTracker.ts, with the random
draws `r` and the formatted wall-clock time `now` passed in explicitly. -/
def simulateCurrent (station : StationKey) (prev : Option WindPayload)
    (r : Rnd) (now : String) : WindPayload :=
  let baseSpeed : ℚ := if station = .drobak then 5 else 3
  let drift : ℚ :=
    if station = .drobak then randBetween r.drift (-(3/10)) (9/10)
    else randBetween r.drift (-(2/5)) (3/5)
  let prevSpeed : ℚ :=
    match prev with
    | some p => p.wind.speed
    | none => baseSpeed + randBetween r.noise (-1) 1
  let speed := clamp (prevSpeed + drift) 0 20
  let gust := clamp (speed + randBetween r.gustOff (1/5) (5/2)) speed (speed + 4)
  let mn := clamp (speed - randBetween r.minOff (1/10) 1) 0 speed
  let direction : ℚ :=
    if station = .drobak then 190 + randBetween r.dirJit (-20) 20
    else 200 + randBetween r.dirJit (-25) 25
  { stationId := stationId station
    stationName := stationName station
    dateTime := now
    wind := { speed := speed, gust := gust, min := mn, unit := "m/s", direction := direction }
    humidity := some (60 + randBetween r.hum (-15) 15)
    pressure := some (1015 + randBetween r.pres (-8) 8)
    rain := some (randBetween r.rain 0 (1/5))
    temperature := some (12 + randBetween r.temp (-2) 8) }

/-- The body of the `for (let i = minutes; i >= 0; i -= 5)` loop of
`simulateHistoric`, consuming two random draws per iteration from the
stream `rnd` starting at index `j`. -/
def simHistLoop (rnd : ℕ → ℚ) (j : ℕ) (i : ℕ) (speed gust : ℚ) (now : ℤ) :
    List HistoricPoint :=
  let speed2 := clamp (speed + randBetween (rnd j) (-(1/2)) (3/5)) 0 22
  let gust2 := clamp (max gust speed2 + randBetween (rnd (j + 1)) (-(2/5)) (9/10))
    speed2 (speed2 + 5)
  let pt : HistoricPoint := ⟨now - (i : ℤ) * 60000, round2 speed2, round2 gust2⟩
  if i < 5 then [pt]
  else pt :: simHistLoop rnd (j + 2) (i - 5) speed2 gust2 now
termination_by i
decreasing_by
  omega

/-- `simulateHistoric(current, minutes = 180)` from useWindTracker.ts, with
the random stream `rnd` and the wall-clock epoch-ms `now` explicit.
`minutes` is a natural number (the loop is vacuous for negative inputs). -/
def simulateHistoric (current : WindPayload) (minutes : ℕ) (rnd : ℕ → ℚ)
    (now : ℤ) : List HistoricPoint :=
  simHistLoop rnd 0 minutes current.wind.speed current.wind.gust now

/-- `slope(points, lookback = 6)` from useWindTracker.ts: `slice(-lookback)`
is `drop (length - lookback)` on the guarded branch, `?.speed ?? 0` is
`Option.getD` of the mapped head/last. -/
def slope (points : List HistoricPoint) (lookback : ℕ := 6) : ℚ :=
  if points.length < lookback then 0
  else
    let tail := points.drop (points.length - lookback)
    let first := ((tail.head?).map HistoricPoint.speed).getD 0
    let last := ((tail.getLast?).map HistoricPoint.speed).getD 0
    (last - first) / (lookback : ℚ)

/-- `isBuildingAtDrobak = drobak ? drobakSlope > 0.08 && drobak.wind.speed >= 4 : false`. -/
def isBuildingAtDrobak (drobak : Option WindPayload)
    (drobakHist : List HistoricPoint) : Bool :=
  match drobak with
  | none => false
  | some d => decide ((8 : ℚ)/100 < slope drobakHist 6) && decide ((4 : ℚ) ≤ d.wind.speed)

/-- `etaMinutes` from useWindTracker.ts (lines 177-184): null unless building
and speed > 0.5; else `Math.round(25 / clamp(10 + spd * 1.5, 8, 45) * 60)`. -/
def etaMinutes (drobak : Option WindPayload) (building : Bool) : Option ℤ :=
  let spd := (drobak.map (fun p => p.wind.speed)).getD 0
  if building = false ∨ spd ≤ 1/2 then none
  else some (jsRound (25 / clamp (10 + spd * (3/2)) 8 45 * 60))

/-- A JavaScript number argument: a genuine number or NaN. -/
inductive JSNum
  | nan
  | num (q : ℚ)
deriving DecidableEq

/-- The 16 compass strings of `degToCardinal`. -/
def dirs : List String :=
  ["N", "NNE", "NE", "ENE", "E", "ESE", "SE", "SSE",
   "S", "SSW", "SW", "WSW", "W", "WNW", "NW", "NNW"]

/-- The index `Math.round(((deg % 360) / 22.5)) % 16` computed by
`degToCardinal`. -/
def cardinalIndex (d : ℚ) : ℤ := jsRemInt (jsRound (jsRem d 360 / (45/2))) 16

/-- `degToCardinal(deg?)` from useWindTracker.ts: `"N/A"` for `null`,
`undefined` or NaN; otherwise `dirs[ix]` (out-of-range indexing, which
JavaScript answers with `undefined`, is modelled by the string
`"undefined"`). -/
def degToCardinal (deg : Option JSNum) : String :=
  match deg with
  | none => "N/A"
  | some .nan => "N/A"
  | some (.num d) =>
    let ix := cardinalIndex d
    if 0 ≤ ix then (dirs.get? ix.toNat).getD "undefined" else "undefined"

/-- The record returned by `recommendGear`. -/
structure Gear where
  sailM2 : ℚ
  boardWidthCm : ℤ
  finCm : ℤ
deriving DecidableEq

/-- `recommendGear(weightKg, windMs)` from useWindTracker.ts:
clamp, then `round(n, 0.2) = Math.round(n/0.2)*0.2` for the sail
(then `toFixed(1)`), `Math.round` for board and fin. -/
def recommendGear (weightKg windMs : ℚ) : Gear :=
  let sail := clamp (12 - (45/100) * windMs - (12/1000) * (weightKg - 75)) 4 (98/10)
  let boardWidth := clamp (112 - (32/10) * windMs - (12/100) * (weightKg - 75)) 58 100
  let fin := clamp (54 - (22/10) * windMs) 28 52
  { sailM2 := round1 ((jsRound (sail / (1/5)) : ℚ) * (1/5))
    boardWidthCm := jsRound boardWidth
    finCm := jsRound fin }

/-- The downstream "Building" indicator computed inline in
src/src/pages/Index.tsx line 155:
`((lysaker?.wind.speed ?? 0) - (lysakerHist.at(-6)?.speed ?? 0)) > 0.08`. -/
def jsAtNeg {α : Type} (l : List α) (k : ℕ) : Option α :=
  if k ≤ l.length then l.get? (l.length - k) else none

/-- The boolean behind the downstream station's "Building"/"Stable Calm"
label in Index.tsx. -/
def lysakerBuildingIndicator (lysaker : Option WindPayload)
    (lysakerHist : List HistoricPoint) : Bool :=
  decide ((8 : ℚ)/100 <
    ((lysaker.map (fun p => p.wind.speed)).getD 0) -
    (((jsAtNeg lysakerHist 6).map HistoricPoint.speed).getD 0))

/-- `toISO(dateTime)`: keep the string if it contains `'T'`, else replace the
first space with `'T'` (JavaScript `replace` with a string pattern replaces
only the first occurrence). -/
def replaceFirstSpace : List Char → List Char
  | [] => []
  | c :: rest => if c = ' ' then 'T' :: rest else c :: replaceFirstSpace rest

def toISO (dateTime : String) : String :=
  if dateTime.contains 'T' then dateTime
  else ⟨replaceFirstSpace dateTime.data⟩

/-- `TrackerState`: the two `Record<number, ...>` maps of the hook, keyed by
numeric station id. -/
structure TrackerState where
  current : ℤ → Option WindPayload
  historic : ℤ → Option (List HistoricPoint)

/-- Record update `next[id] = v`. -/
def updMap {α : Type} (f : ℤ → Option α) (id : ℤ) (v : α) : ℤ → Option α :=
  fun i => if i = id then some v else f i

/-- The environment of one `fetchAll` poll cycle: configuration, the outcome
of each attempted fetch (any failure — timeout, network error, non-2xx — is
the single error value), the random draws, and the clock. -/
structure CycleEnv where
  baseUrl : Option String
  curFetch : StationKey → Except Unit WindPayload
  histFetch : StationKey → Except Unit (List HistoricPoint)
  rndCur : StationKey → Rnd
  rndHist : StationKey → ℕ → ℚ
  nowStr : String
  now : ℤ

/-- The first try/catch of the loop body: fetch the current reading when a
base URL is configured, fall back to `simulateCurrent` seeded with the
previous current reading (`current[id]` of the pre-cycle state `old`) on
failure or when no base URL is set. -/
def resolveCurrent (env : CycleEnv) (old : TrackerState) (k : StationKey) :
    WindPayload :=
  match env.baseUrl with
  | some _ =>
    match env.curFetch k with
    | .ok p => { p with dateTime := toISO p.dateTime }
    | .error _ => simulateCurrent k (old.current (stationId k)) (env.rndCur k) env.nowStr
  | none => simulateCurrent k (old.current (stationId k)) (env.rndCur k) env.nowStr

/-- The second try/catch of the loop body: fetch the historic series, fall
back to `simulateHistoric` seeded with this cycle's freshly resolved
current reading `c` (`nextCurrent[id]`). -/
def resolveHistoric (env : CycleEnv) (c : WindPayload) (k : StationKey) :
    List HistoricPoint :=
  match env.baseUrl with
  | some _ =>
    match env.histFetch k with
    | .ok h => h
    | .error _ => simulateHistoric c 180 (env.rndHist k) env.now
  | none => simulateHistoric c 180 (env.rndHist k) env.now

/-- One iteration of the `for (const key of stations)` loop of `fetchAll`:
`old` is the pre-cycle state (the seeds `current[id]` are read from it),
`acc` the accumulated `nextCurrent`/`nextHistoric`. -/
def stepStation (env : CycleEnv) (old acc : TrackerState) (k : StationKey) :
    TrackerState :=
  let newCur := resolveCurrent env old k
  { current := updMap acc.current (stationId k) newCur
    historic := updMap acc.historic (stationId k) (resolveHistoric env newCur k) }

/-- `fetchAll`: process drobak then lysaker over the previous state `st`;
total — every failure is absorbed into a simulator fallback, none escapes. -/
def fetchAll (env : CycleEnv) (st : TrackerState) : TrackerState :=
  stepStation env st (stepStation env st st .drobak) .lysaker

/-! Spec-side formulas (specification §4.4), written independently of
`recommendGear` for the refinement comparison. -/

/-- Sail area as the specification words it: clamp, then round to the
nearest 0.2. -/
def specSailAreaM2 (weightKg windMs : ℚ) : ℚ :=
  (jsRound (clamp (12 - (45/100) * windMs - (12/1000) * (weightKg - 75)) 4 (98/10) / (1/5)) : ℚ)
    * (1/5)

/-- Board width as the specification words it: clamp, then round to the
nearest integer. -/
def specBoardWidthCm (weightKg windMs : ℚ) : ℤ :=
  jsRound (clamp (112 - (32/10) * windMs - (12/100) * (weightKg - 75)) 58 100)

/-- Fin size as the specification words it: clamp, then round to the
nearest integer. -/
def specFinCm (windMs : ℚ) : ℤ :=
  jsRound (clamp (54 - (22/10) * windMs) 28 52)

/-- The invariant package claimed for one simulated reading. -/
def windInvariant (p : WindPayload) (station : StationKey) : Prop :=
  0 ≤ p.wind.min ∧ p.wind.min ≤ p.wind.speed ∧ p.wind.speed ≤ p.wind.gust ∧
  0 ≤ p.wind.speed ∧ p.wind.speed ≤ 20 ∧
  (station = .drobak → 170 ≤ p.wind.direction ∧ p.wind.direction ≤ 210) ∧
  (station = .lysaker → 175 ≤ p.wind.direction ∧ p.wind.direction ≤ 225)

/-! Concrete fixtures used by witnesses and counterexamples. -/

/-- A payload with the given wind speed (gust equal to speed). -/
def mkPayload (s : ℚ) : WindPayload :=
  { stationId := 101
    stationName := "Drøbak"
    dateTime := "2024-05-01T12:00:00"
    wind := { speed := s, gust := s, min := 0, unit := "m/s", direction := 190 }
    humidity := none
    pressure := none
    rain := none
    temperature := none }

/-- All-zero random draws. -/
def rnd0 : Rnd := ⟨0, 0, 0, 0, 0, 0, 0, 0, 0⟩

/-- A six-point historic series whose speeds rise from 0 to 2 on the last
sample. -/
def histRise : List HistoricPoint :=
  [⟨0, 0, 0⟩, ⟨60000, 0, 0⟩, ⟨120000, 0, 0⟩, ⟨180000, 0, 0⟩, ⟨240000, 0, 0⟩, ⟨300000, 2, 2⟩]

/-- A cycle environment whose every fetch fails. -/
def env0 : CycleEnv :=
  { baseUrl := some "https://api.example.com"
    curFetch := fun _ => .error ()
    histFetch := fun _ => .error ()
    rndCur := fun _ => rnd0
    rndHist := fun _ _ => 0
    nowStr := "2024-05-01T12:00:00"
    now := 0 }

/-- The empty tracker state the hook starts from. -/
def st0 : TrackerState := ⟨fun _ => none, fun _ => none⟩

/-! Helper lemmas. -/

theorem le_clamp (n : ℚ) {lo hi : ℚ} (h : lo ≤ hi) : lo ≤ clamp n lo hi :=
  le_min h (le_max_left _ _)

theorem clamp_le_right (n lo hi : ℚ) : clamp n lo hi ≤ hi :=
  min_le_left _ _

theorem le_jsRound {a : ℤ} {x : ℚ} (h : (a : ℚ) ≤ x) : a ≤ jsRound x :=
  Int.le_floor.mpr (by linarith)

theorem jsRound_le {x : ℚ} {b : ℤ} (h : x ≤ (b : ℚ)) : jsRound x ≤ b := by
  have hb : jsRound x < b + 1 := Int.floor_lt.mpr (by push_cast; linarith)
  omega

theorem round1_int_fifth (k : ℤ) : round1 ((k : ℚ) * (1/5)) = (k : ℚ) * (1/5) := by
  unfold round1
  have h : (k : ℚ) * (1/5) * 10 + 1/2 = ((2 * k : ℤ) : ℚ) + 1/2 := by push_cast; ring
  rw [h, Int.floor_int_add]
  have h0 : ⌊(1/2 : ℚ)⌋ = 0 := by norm_num
  rw [h0]
  push_cast
  ring

theorem round2_mono {a b : ℚ} (h : a ≤ b) : round2 a ≤ round2 b := by
  unfold round2
  have hf : ⌊a * 100 + 1/2⌋ ≤ ⌊b * 100 + 1/2⌋ := Int.floor_le_floor (by linarith)
  have : ((⌊a * 100 + 1/2⌋ : ℤ) : ℚ) ≤ ((⌊b * 100 + 1/2⌋ : ℤ) : ℚ) := by exact_mod_cast hf
  linarith

/-! Claim theorems. -/

/-- C6: for every tracker state with an upstream (Drøbak) current reading,
the upstream building flag is true iff the slope of the upstream historic
series exceeds 0.08 and the upstream current speed is at least 4 m/s. -/
theorem isBuildingAtDrobak_iff (d : WindPayload) (hist : List HistoricPoint) :
    isBuildingAtDrobak (some d) hist = true ↔
      ((8 : ℚ)/100 < WindTracker.slope hist 6 ∧ (4 : ℚ) ≤ d.wind.speed) := by
  simp [isBuildingAtDrobak]

/-- C2: `recommendGear` returns the sail area clamped to [4, 9.8] then
rounded to the nearest 0.2, the board width clamped to [58, 100] then
rounded to the nearest integer, and the fin clamped to [28, 52] then
rounded to the nearest integer (the `toFixed(1)` display step does not
change the sail value); in particular
`recommendGear(85, 6) = (sail 9.2, board 92, fin 41)`. -/
theorem recommendGear_formula :
    (∀ w v : ℚ, (recommendGear w v).sailM2 = specSailAreaM2 w v ∧
      (recommendGear w v).boardWidthCm = specBoardWidthCm w v ∧
      (recommendGear w v).finCm = specFinCm v) ∧
    recommendGear 85 6 = ⟨46/5, 92, 41⟩ := by
  constructor
  · intro w v
    refine ⟨?_, rfl, rfl⟩
    show round1 ((jsRound _ : ℚ) * (1/5)) = _
    rw [round1_int_fifth]
    rfl
  · show Gear.mk _ _ _ = _
    simp [recommendGear, clamp, jsRound, round1]
    norm_num

/-- C8: for all inputs, including extreme ones, `recommendGear` is total and
its outputs stay inside the clamp bounds: sail in [4, 9.8], board width in
[58, 100], fin in [28, 52]; at weight 200 and wind 50 all three saturate at
their floors. -/
theorem recommendGear_bounds :
    (∀ w v : ℚ, 4 ≤ (recommendGear w v).sailM2 ∧ (recommendGear w v).sailM2 ≤ 98/10 ∧
      58 ≤ (recommendGear w v).boardWidthCm ∧ (recommendGear w v).boardWidthCm ≤ 100 ∧
      28 ≤ (recommendGear w v).finCm ∧ (recommendGear w v).finCm ≤ 52) ∧
    recommendGear 200 50 = ⟨4, 58, 28⟩ := by
  constructor
  · intro w v
    have hs4 : (4 : ℚ) ≤ clamp (12 - (45/100) * v - (12/1000) * (w - 75)) 4 (98/10) :=
      le_clamp _ (by norm_num)
    have hs98 : clamp (12 - (45/100) * v - (12/1000) * (w - 75)) 4 (98/10) ≤ 98/10 :=
      clamp_le_right _ _ _
    have hk20 : (20 : ℤ) ≤ jsRound (clamp (12 - (45/100) * v - (12/1000) * (w - 75)) 4 (98/10) / (1/5)) :=
      le_jsRound (by push_cast; rw [le_div_iff₀ (by norm_num)]; linarith)
    have hk49 : jsRound (clamp (12 - (45/100) * v - (12/1000) * (w - 75)) 4 (98/10) / (1/5)) ≤ (49 : ℤ) :=
      jsRound_le (by rw [div_le_iff₀ (by norm_num)]; push_cast; linarith)
    have hsail : (recommendGear w v).sailM2 =
        (jsRound (clamp (12 - (45/100) * v - (12/1000) * (w - 75)) 4 (98/10) / (1/5)) : ℚ) * (1/5) := by
      show round1 _ = _
      exact round1_int_fifth _
    have hb58 : (58 : ℤ) ≤ (recommendGear w v).boardWidthCm :=
      le_jsRound (by push_cast; exact le_clamp _ (by norm_num))
    have hb100 : (recommendGear w v).boardWidthCm ≤ (100 : ℤ) :=
      jsRound_le (by push_cast; exact clamp_le_right _ _ _)
    have hf28 : (28 : ℤ) ≤ (recommendGear w v).finCm :=
      le_jsRound (by push_cast; exact le_clamp _ (by norm_num))
    have hf52 : (recommendGear w v).finCm ≤ (52 : ℤ) :=
      jsRound_le (by push_cast; exact clamp_le_right _ _ _)
    refine ⟨?_, ?_, hb58, hb100, hf28, hf52⟩
    · rw [hsail]
      have : ((20 : ℤ) : ℚ) ≤
          (jsRound (clamp (12 - (45/100) * v - (12/1000) * (w - 75)) 4 (98/10) / (1/5)) : ℚ) := by
        exact_mod_cast hk20
      linarith
    · rw [hsail]
      have : ((jsRound (clamp (12 - (45/100) * v - (12/1000) * (w - 75)) 4 (98/10) / (1/5)) : ℤ) : ℚ)
          ≤ ((49 : ℤ) : ℚ) := by exact_mod_cast hk49
      linarith
  · show Gear.mk _ _ _ = _
    simp [recommendGear, clamp, jsRound, round1]
    norm_num

/-- C5: for every historic series and positive lookback (default 6),
`slope` returns exactly 0 when the series has fewer than `lookback` points,
and otherwise equals the speed of the series' last point minus the speed of
the first point of the last `lookback` points, divided by `lookback`. -/
theorem slope_spec (pts : List HistoricPoint) (lb : ℕ) (hlb : 0 < lb) :
    (pts.length < lb → WindTracker.slope pts lb = 0) ∧
    (lb ≤ pts.length →
      WindTracker.slope pts lb =
        (((pts[pts.length - 1]?).map HistoricPoint.speed).getD 0 -
         ((pts[pts.length - lb]?).map HistoricPoint.speed).getD 0) / (lb : ℚ)) := by
  constructor
  · intro h
    simp [WindTracker.slope, h]
  · intro h
    have hnl : ¬ pts.length < lb := not_lt.mpr h
    have h2 : (pts.drop (pts.length - lb)).getLast? = pts[pts.length - 1]? := by
      rw [List.getLast?_eq_getElem?, List.getElem?_drop, List.length_drop]
      congr 1
      omega
    simp only [WindTracker.slope, if_neg hnl, List.head?_drop, h2]

/-- C5 witness: `slope` at a too-short series and at `histRise` with the
default lookback 6. -/
theorem slope_spec_witness :
    WindTracker.slope [] 6 = 0 ∧ WindTracker.slope histRise 6 = 1/3 := by
  constructor
  · exact (slope_spec [] 6 (by norm_num)).1 (by simp)
  · have h := (slope_spec histRise 6 (by norm_num)).2 (by simp [histRise])
    rw [h]
    norm_num [histRise]

/-- C1: `etaMinutes` is null whenever the building flag is false or the
upstream speed is at most 0.5 m/s; otherwise it equals
`round(25 / clamp(10 + 1.5 * speed, 8, 45) * 60)` and is a positive
integer. -/
theorem etaMinutes_spec (d : WindPayload) (b : Bool) :
    (b = false ∨ d.wind.speed ≤ 1/2 → etaMinutes (some d) b = none) ∧
    (1/2 < d.wind.speed →
      etaMinutes (some d) true =
        some (jsRound (25 / clamp (10 + d.wind.speed * (3/2)) 8 45 * 60)) ∧
      0 < jsRound (25 / clamp (10 + d.wind.speed * (3/2)) 8 45 * 60)) := by
  have heq : ∀ c : Bool, etaMinutes (some d) c =
      if c = false ∨ d.wind.speed ≤ 1/2 then none
      else some (jsRound (25 / clamp (10 + d.wind.speed * (3/2)) 8 45 * 60)) :=
    fun _ => rfl
  constructor
  · intro h
    rw [heq, if_pos h]
  · intro h
    have hfront8 : (8 : ℚ) ≤ clamp (10 + d.wind.speed * (3/2)) 8 45 :=
      le_clamp _ (by norm_num)
    have hfront45 : clamp (10 + d.wind.speed * (3/2)) 8 45 ≤ 45 :=
      clamp_le_right _ _ _
    have hpos : (0 : ℚ) < clamp (10 + d.wind.speed * (3/2)) 8 45 := by linarith
    have hq : (25 : ℚ) / 45 ≤ 25 / clamp (10 + d.wind.speed * (3/2)) 8 45 :=
      div_le_div_of_nonneg_left (by norm_num) hpos hfront45
    have hy : (1 : ℚ) ≤ 25 / clamp (10 + d.wind.speed * (3/2)) 8 45 * 60 := by
      nlinarith
    constructor
    · rw [heq, if_neg]
      rintro (hc | hc)
      · exact absurd hc (by simp)
      · linarith
    · have h1 : (1 : ℤ) ≤ jsRound (25 / clamp (10 + d.wind.speed * (3/2)) 8 45 * 60) :=
        le_jsRound (by push_cast; linarith)
      omega

/-- C1 witness: an upstream reading of 6 m/s with the building flag true
yields 79 minutes; with the flag false the ETA is null. -/
theorem etaMinutes_spec_witness :
    etaMinutes (some (mkPayload 6)) true = some 79 ∧
    etaMinutes (some (mkPayload 6)) false = none := by
  constructor
  · have h := (etaMinutes_spec (mkPayload 6) true).2 (by norm_num [mkPayload])
    rw [h.1]
    norm_num [clamp, jsRound, mkPayload]
  · exact (etaMinutes_spec (mkPayload 6) false).1 (Or.inl rfl)

/-- C7 counterexample: a state where the slope of the downstream historic
series exceeds 0.08 yet the downstream "Building" indicator is false — the
indicator does not compute `slope` (it compares the current reading's speed
against the sixth-from-last historic point, without dividing by the
lookback). -/
theorem lysakerIndicator_not_slope :
    (8 : ℚ)/100 < WindTracker.slope histRise 6 ∧
    lysakerBuildingIndicator (some (mkPayload 0)) histRise = false := by
  constructor
  · norm_num [WindTracker.slope, histRise]
  · norm_num [lysakerBuildingIndicator, jsAtNeg, histRise, mkPayload]

/-- C7 amended: the downstream station's "Building" indicator is true
exactly when the downstream current speed (0 if absent) minus the speed of
the sixth-from-last historic point (0 if fewer than six points) exceeds
0.08 — no slope computation and no minimum-speed condition; in particular
it can be true at a downstream speed of 1 m/s. -/
theorem lysakerIndicator_amended :
    (∀ (cur : Option WindPayload) (hist : List HistoricPoint),
      lysakerBuildingIndicator cur hist = true ↔
        (8 : ℚ)/100 <
          ((cur.map (fun p => p.wind.speed)).getD 0) -
          (((jsAtNeg hist 6).map HistoricPoint.speed).getD 0)) ∧
    lysakerBuildingIndicator (some (mkPayload 1)) histRise = true := by
  constructor
  · intro cur hist
    simp [lysakerBuildingIndicator]
  · norm_num [lysakerBuildingIndicator, jsAtNeg, histRise, mkPayload]

/-- C10: for every direction in [0, 360) the computed index lands in 0..15
and `degToCardinal` returns one of the 16 compass strings; directions at or
above 348.75 wrap around to "N"; null, undefined and NaN inputs give
"N/A". -/
theorem degToCardinal_spec :
    (∀ d : ℚ, 0 ≤ d → d < 360 →
      0 ≤ cardinalIndex d ∧ cardinalIndex d ≤ 15 ∧
      degToCardinal (some (.num d)) ∈ dirs) ∧
    (∀ d : ℚ, 1395/4 ≤ d → d < 360 → degToCardinal (some (.num d)) = "N") ∧
    degToCardinal none = "N/A" ∧ degToCardinal (some .nan) = "N/A" := by
  have hrem : ∀ d : ℚ, 0 ≤ d → d < 360 → jsRem d 360 = d := by
    intro d h0 h360
    unfold jsRem
    have hq : (0 : ℚ) ≤ d / 360 := by positivity
    rw [if_pos hq]
    have hfl : ⌊d / 360⌋ = 0 := by
      rw [Int.floor_eq_zero_iff]
      constructor
      · exact hq
      · rw [div_lt_one (by norm_num)]
        linarith
    rw [hfl]
    push_cast
    ring
  refine ⟨?_, ?_, rfl, rfl⟩
  · intro d h0 h360
    have hidx : cardinalIndex d = jsRound (d / (45/2)) % 16 := by
      unfold cardinalIndex
      rw [hrem d h0 h360]
      unfold jsRemInt
      rw [if_pos (le_jsRound (by positivity))]
    have hlo : 0 ≤ cardinalIndex d := by
      rw [hidx]
      exact Int.emod_nonneg _ (by norm_num)
    have hhi : cardinalIndex d ≤ 15 := by
      rw [hidx]
      have := Int.emod_lt_of_pos (jsRound (d / (45/2))) (show (0:ℤ) < 16 by norm_num)
      omega
    refine ⟨hlo, hhi, ?_⟩
    show (if 0 ≤ cardinalIndex d then (dirs.get? (cardinalIndex d).toNat).getD "undefined"
      else "undefined") ∈ dirs
    rw [if_pos hlo]
    have hlt : (cardinalIndex d).toNat < dirs.length := by
      simp only [dirs, List.length]
      omega
    rw [List.get?_eq_get hlt, Option.getD_some]
    exact List.get_mem dirs _ _
  · intro d hlow h360
    have h0 : (0 : ℚ) ≤ d := by linarith
    have hm : jsRound (d / (45/2)) = 16 := by
      unfold jsRound
      rw [Int.floor_eq_iff]
      constructor
      · push_cast
        have h1 : (31/2 : ℚ) ≤ d / (45/2) := by
          rw [le_div_iff₀ (by norm_num)]
          linarith
        linarith
      · push_cast
        have h2 : d / (45/2) < 16 := by
          rw [div_lt_iff₀ (by norm_num)]
          linarith
        linarith
    have hidx : cardinalIndex d = 0 := by
      unfold cardinalIndex
      rw [hrem d h0 h360]
      unfold jsRemInt
      rw [if_pos (by rw [hm]; norm_num), hm]
      norm_num
    show (if 0 ≤ cardinalIndex d then (dirs.get? (cardinalIndex d).toNat).getD "undefined"
      else "undefined") = "N"
    rw [hidx]
    rfl

/-- C10 witness: a direction near 360 wraps to "N" and a mid-range
direction maps into the 16-string table. -/
theorem degToCardinal_spec_witness :
    degToCardinal (some (.num 355)) = "N" ∧
    degToCardinal (some (.num 90)) ∈ dirs := by
  constructor
  · exact degToCardinal_spec.2.1 355 (by norm_num) (by norm_num)
  · exact (degToCardinal_spec.1 90 (by norm_num) (by norm_num)).2.2

/-- C4: every reading produced by `simulateCurrent` (any station, any
optional previous reading, random draws in [0,1)) satisfies
gust ≥ speed ≥ min ≥ 0 with speed in [0, 20] and the direction inside the
station band — [170, 210] for Drøbak, [175, 225] for Lysaker. -/
theorem simulateCurrent_invariants (station : StationKey) (prev : Option WindPayload)
    (r : Rnd) (now : String) (hr : RndOK r) :
    windInvariant (simulateCurrent station prev r now) station := by
  unfold RndOK at hr
  obtain ⟨⟨hd0, hd1⟩, -, ⟨hg0, hg1⟩, ⟨hm0, hm1⟩, ⟨hj0, hj1⟩, -, -, -, -⟩ := hr
  unfold windInvariant simulateCurrent randBetween
  cases station with
  | drobak =>
    simp only [reduceIte]
    refine ⟨le_clamp _ (le_clamp _ (by norm_num)), clamp_le_right _ _ _,
      le_clamp _ (by linarith), le_clamp _ (by norm_num), clamp_le_right _ _ _,
      fun _ => ⟨by nlinarith, by nlinarith⟩, fun h => absurd h (by simp)⟩
  | lysaker =>
    simp only [reduceIte, reduceCtorEq]
    refine ⟨le_clamp _ (le_clamp _ (by norm_num)), clamp_le_right _ _ _,
      le_clamp _ (by linarith), le_clamp _ (by norm_num), clamp_le_right _ _ _,
      fun h => absurd h (by simp), fun _ => ⟨by nlinarith, by nlinarith⟩⟩

/-- C4 witness: the invariant package at a concrete station, previous
reading and draw vector. -/
theorem simulateCurrent_invariants_witness :
    windInvariant (simulateCurrent .drobak none rnd0 "2024-05-01T12:00:00") .drobak :=
  simulateCurrent_invariants .drobak none rnd0 "2024-05-01T12:00:00"
    (by norm_num [RndOK, rnd0])

theorem getLast?_cons_of_ne_nil {α : Type} (a : α) {l : List α} (h : l ≠ []) :
    (a :: l).getLast? = l.getLast? := by
  cases l with
  | nil => exact absurd rfl h
  | cons b t => exact List.getLast?_cons_cons

theorem simHistLoop_ne_nil (rnd : ℕ → ℚ) (j i : ℕ) (s g : ℚ) (now : ℤ) :
    simHistLoop rnd j i s g now ≠ [] := by
  unfold simHistLoop
  dsimp only
  split <;> simp

theorem simHistLoop_length (rnd : ℕ → ℚ) (i : ℕ) :
    ∀ (j : ℕ) (s g : ℚ) (now : ℤ), (simHistLoop rnd j i s g now).length = i / 5 + 1 := by
  induction i using Nat.strong_induction_on with
  | _ i ih =>
    intro j s g now
    unfold simHistLoop
    dsimp only
    split
    · rename_i h
      simp [Nat.div_eq_of_lt h]
    · rename_i h
      rw [List.length_cons, ih (i - 5) (by omega)]
      omega

theorem simHistLoop_head_t (rnd : ℕ → ℚ) (j i : ℕ) (s g : ℚ) (now : ℤ) :
    ((simHistLoop rnd j i s g now).head?).map HistoricPoint.t =
      some (now - (i : ℤ) * 60000) := by
  unfold simHistLoop
  dsimp only
  split <;> rfl

theorem simHistLoop_getLast_t (rnd : ℕ → ℚ) (i : ℕ) :
    ∀ (j : ℕ) (s g : ℚ) (now : ℤ),
      ((simHistLoop rnd j i s g now).getLast?).map HistoricPoint.t =
        some (now - ((i % 5 : ℕ) : ℤ) * 60000) := by
  induction i using Nat.strong_induction_on with
  | _ i ih =>
    intro j s g now
    unfold simHistLoop
    dsimp only
    set S := clamp (s + randBetween (rnd j) (-(1/2)) (3/5)) 0 22 with hS
    set G := clamp (max g S + randBetween (rnd (j + 1)) (-(2/5)) (9/10)) S (S + 5) with hG
    split
    · rename_i h
      rw [Nat.mod_eq_of_lt h]
      rfl
    · rename_i h
      rw [getLast?_cons_of_ne_nil _ (simHistLoop_ne_nil rnd (j + 2) (i - 5) S G now),
        ih (i - 5) (by omega) (j + 2) S G now]
      have hmod : ((i - 5) % 5 : ℕ) = i % 5 := by omega
      rw [hmod]

theorem simHistLoop_chain (rnd : ℕ → ℚ) (i : ℕ) :
    ∀ (j : ℕ) (s g : ℚ) (now : ℤ),
      (simHistLoop rnd j i s g now).Chain' (fun p q => q.t = p.t + 300000) := by
  induction i using Nat.strong_induction_on with
  | _ i ih =>
    intro j s g now
    unfold simHistLoop
    dsimp only
    split
    · exact List.chain'_singleton _
    · rename_i h
      rw [List.chain'_cons']
      refine ⟨?_, ih (i - 5) (by omega) _ _ _ _⟩
      intro y hy
      rw [Option.mem_def] at hy
      have hh := simHistLoop_head_t rnd (j + 2) (i - 5)
        (clamp (s + randBetween (rnd j) (-(1/2)) (3/5)) 0 22)
        (clamp (max g (clamp (s + randBetween (rnd j) (-(1/2)) (3/5)) 0 22) +
          randBetween (rnd (j + 1)) (-(2/5)) (9/10))
          (clamp (s + randBetween (rnd j) (-(1/2)) (3/5)) 0 22)
          (clamp (s + randBetween (rnd j) (-(1/2)) (3/5)) 0 22 + 5)) now
      rw [hy] at hh
      have hyt : y.t = now - ((i - 5 : ℕ) : ℤ) * 60000 := by
        simpa using hh
      show y.t = now - (i : ℤ) * 60000 + 300000
      rw [hyt]
      have h5 : (5 : ℕ) ≤ i := by omega
      push_cast [Nat.cast_sub h5]
      ring

theorem simHistLoop_mem (rnd : ℕ → ℚ) (i : ℕ) :
    ∀ (j : ℕ) (s g : ℚ) (now : ℤ) (p : HistoricPoint), p ∈ simHistLoop rnd j i s g now →
      p.speed ≤ p.gust ∧ (∃ a : ℤ, p.speed = (a : ℚ)/100) ∧ ∃ b : ℤ, p.gust = (b : ℚ)/100 := by
  induction i using Nat.strong_induction_on with
  | _ i ih =>
    intro j s g now p hp
    unfold simHistLoop at hp
    dsimp only at hp
    have hpt : ∀ s2 g2 : ℚ,
        p = HistoricPoint.mk (now - (i : ℤ) * 60000) (round2 s2) (round2 (clamp (max g s2 +
          randBetween (rnd (j + 1)) (-(2/5)) (9/10)) s2 (s2 + 5))) →
        p.speed ≤ p.gust ∧ (∃ a : ℤ, p.speed = (a : ℚ)/100) ∧ ∃ b : ℤ, p.gust = (b : ℚ)/100 := by
      intro s2 g2 hpe
      subst hpe
      refine ⟨round2_mono (le_clamp _ (by linarith)), ⟨_, rfl⟩, ⟨_, rfl⟩⟩
    split at hp
    · rename_i h
      rw [List.mem_singleton] at hp
      exact hpt _ 0 hp
    · rename_i h
      rcases List.mem_cons.mp hp with h1 | h2
      · exact hpt _ 0 h1
      · exact ih (i - 5) (by omega) _ _ _ _ p h2

/-- C9 counterexample: with windowMinutes = 7 (not a multiple of 5) the
last point's timestamp is 2 minutes before now, so the series does not end
at now as the claim states for every windowMinutes. -/
theorem simulateHistoric_not_ending_now :
    ((simulateHistoric (mkPayload 5) 7 (fun _ => 0) 0).getLast?).map HistoricPoint.t =
      some (-120000) ∧ (-120000 : ℤ) ≠ (0 : ℤ) := by
  constructor
  · simp [simulateHistoric, simHistLoop, clamp, randBetween, round2, mkPayload]
  · norm_num

/-- C9 amended: for every current reading and windowMinutes that is a
multiple of 5 (as the default 180 is), `simulateHistoric` returns exactly
windowMinutes/5 + 1 points, ordered oldest→newest at 5-minute (300000 ms)
steps ending at now, each point rounded to 2 decimal places with
gust ≥ speed; for a non-multiple the last timestamp is now minus
(windowMinutes mod 5) minutes instead. -/
theorem simulateHistoric_spec (cur : WindPayload) (m : ℕ) (rnd : ℕ → ℚ) (now : ℤ)
    (h5 : 5 ∣ m) :
    (simulateHistoric cur m rnd now).length = m / 5 + 1 ∧
    (simulateHistoric cur m rnd now).Chain' (fun p q => q.t = p.t + 300000) ∧
    ((simulateHistoric cur m rnd now).head?).map HistoricPoint.t =
      some (now - (m : ℤ) * 60000) ∧
    ((simulateHistoric cur m rnd now).getLast?).map HistoricPoint.t = some now ∧
    ∀ p ∈ simulateHistoric cur m rnd now,
      p.speed ≤ p.gust ∧ (∃ a : ℤ, p.speed = (a : ℚ)/100) ∧ ∃ b : ℤ, p.gust = (b : ℚ)/100 := by
  have hm5 : m % 5 = 0 := by omega
  refine ⟨simHistLoop_length rnd m 0 _ _ now, simHistLoop_chain rnd m 0 _ _ now,
    simHistLoop_head_t rnd 0 m _ _ now, ?_, simHistLoop_mem rnd m 0 _ _ now⟩
  rw [simulateHistoric, simHistLoop_getLast_t rnd m 0 _ _ now, hm5]
  norm_num

/-- C9 witness: the default 180-minute window gives 37 points ending at
now. -/
theorem simulateHistoric_spec_witness :
    (simulateHistoric (mkPayload 5) 180 (fun _ => 0) 0).length = 37 ∧
    ((simulateHistoric (mkPayload 5) 180 (fun _ => 0) 0).getLast?).map HistoricPoint.t =
      some 0 := by
  have h := simulateHistoric_spec (mkPayload 5) 180 (fun _ => 0) 0 (by norm_num)
  refine ⟨?_, h.2.2.2.1⟩
  rw [h.1]

theorem fetchAll_current_eq (env : CycleEnv) (st : TrackerState) (k : StationKey) :
    (fetchAll env st).current (stationId k) = some (resolveCurrent env st k) := by
  cases k <;> simp [fetchAll, stepStation, updMap, stationId]

theorem fetchAll_historic_eq (env : CycleEnv) (st : TrackerState) (k : StationKey) :
    (fetchAll env st).historic (stationId k) =
      some (resolveHistoric env (resolveCurrent env st k) k) := by
  cases k <;> simp [fetchAll, stepStation, updMap, stationId]

/-- C3: every fetch failure in a poll cycle is absorbed locally — a failed
current fetch is replaced by `simulateCurrent` seeded with that station's
previous current reading, a failed historic fetch by `simulateHistoric`
seeded with the cycle's freshly resolved current reading — and after the
cycle (a total function: no error propagates) both stations have both a
current and a historic entry. -/
theorem fetchAll_absorbs (env : CycleEnv) (st : TrackerState) :
    (∀ k : StationKey, env.baseUrl.isSome = true → env.curFetch k = .error () →
        (fetchAll env st).current (stationId k) =
          some (simulateCurrent k (st.current (stationId k)) (env.rndCur k) env.nowStr)) ∧
    (∀ k : StationKey, env.baseUrl.isSome = true → env.histFetch k = .error () →
        ∃ c : WindPayload, (fetchAll env st).current (stationId k) = some c ∧
          (fetchAll env st).historic (stationId k) =
            some (simulateHistoric c 180 (env.rndHist k) env.now)) ∧
    (∀ k : StationKey, ((fetchAll env st).current (stationId k)).isSome = true ∧
        ((fetchAll env st).historic (stationId k)).isSome = true) := by
  refine ⟨?_, ?_, ?_⟩
  · intro k hb hc
    obtain ⟨u, hu⟩ := Option.isSome_iff_exists.mp hb
    rw [fetchAll_current_eq, resolveCurrent, hu, hc]
  · intro k hb hh
    obtain ⟨u, hu⟩ := Option.isSome_iff_exists.mp hb
    refine ⟨resolveCurrent env st k, fetchAll_current_eq env st k, ?_⟩
    rw [fetchAll_historic_eq, resolveHistoric, hu, hh]
  · intro k
    rw [fetchAll_current_eq, fetchAll_historic_eq]
    exact ⟨rfl, rfl⟩

/-- C3 witness: a cycle over the empty state in which every fetch fails
still produces simulated current and historic entries for both stations. -/
theorem fetchAll_absorbs_witness :
    (fetchAll env0 st0).current 101 =
      some (simulateCurrent .drobak (st0.current 101) (env0.rndCur .drobak) env0.nowStr) ∧
    ((fetchAll env0 st0).historic 201).isSome = true := by
  refine ⟨(fetchAll_absorbs env0 st0).1 .drobak rfl rfl, ?_⟩
  exact ((fetchAll_absorbs env0 st0).2.2 .lysaker).2

end WindTracker
